import Mathlib

/-!
# Luminary blog: `static/theme.js`

A shallow embedding of the page-enhancement script `src/static/theme.js`.

The script is one `DOMContentLoaded` callback.  It reads and writes three pieces of
host state: the element tree of the document (class lists and inline `style.transform`),
`localStorage`, and the set of registered event listeners.  Each of them is made an
explicit field of `State`; the callback becomes `init` and the four closures it
registers become the constructors of `Handler`, executed by `runHandler`.

Modelling conventions

* `document.body` is the body element of the document; it always exists once
  `DOMContentLoaded` has fired, so it is a field of `State` of its own.  Every other
  element sits in `State.elems`; `bodyPos` says how many of them come before the body
  in tree order, so that `querySelectorAll` can answer in document order.
* A `DOMTokenList` (`classList`) is a list of tokens without repetition.
* `localStorage` is an association list from keys to values, in insertion order.
* Calling a method on `null` throws a `TypeError`; this is the only way the code of
  this file can fail, and `init` returns in `Except` to record it.
-/

namespace Luminary

/-! ## Host objects -/

/-- Reference to an element of the document: the body, or the `i`-th other element. -/
inductive NodeRef where
  | body : NodeRef
  | elem (i : Nat) : NodeRef
  deriving DecidableEq, Repr

/-- An element, with the attributes the script can observe or change. -/
structure Element where
  /-- Attribute `id`. -/
  id : String
  /-- Local name of the element (`a`, `div`, `button`, ...). -/
  localName : String
  /-- Tokens of `element.classList`. -/
  classList : List String
  /-- Parent element, if it has one. -/
  parent : Option NodeRef
  /-- Value of `element.style.transform` (the empty string when unset). -/
  transform : String
  deriving DecidableEq, Repr

/-- The four closures created by the script. `navEnter`, `btnDown` and `btnUp` capture
the loop variable (`link`, `button`) of the `forEach` that creates them. -/
inductive Handler where
  | themeClick : Handler
  | navEnter (link : NodeRef) : Handler
  | btnDown (button : NodeRef) : Handler
  | btnUp (button : NodeRef) : Handler
  deriving DecidableEq, Repr

/-- One `target.addEventListener(event, handler)` registration. -/
structure Listener where
  target : NodeRef
  event : String
  handler : Handler
  deriving DecidableEq, Repr

/-- Host state seen by the script. -/
structure State where
  /-- Element `document.body`. -/
  body : Element
  /-- All other elements of the document, in tree order. -/
  elems : List Element
  /-- Number of elements of `elems` that precede the body in tree order. -/
  bodyPos : Nat
  /-- Entries of `localStorage`, in insertion order. -/
  storage : List (String × String)
  /-- Lines written with `console.log`. -/
  console : List String
  /-- Registered listeners, in registration order. -/
  listeners : List Listener
  deriving DecidableEq, Repr

/-! ## `localStorage` -/

/-- Method `localStorage.getItem(key)`: the stored value, or `none` for `null`. -/
def getItem : List (String × String) → String → Option String
  | [], _ => none
  | (k, v) :: rest, key => if k = key then some v else getItem rest key

/-- Method `localStorage.setItem(key, value)`: an existing key keeps its position and
gets the new value, a new key is appended. -/
def setItem : List (String × String) → String → String → List (String × String)
  | [], key, value => [(key, value)]
  | (k, v) :: rest, key, value =>
    if k = key then (k, value) :: rest else (k, v) :: setItem rest key value

/-! ## `DOMTokenList` -/

namespace classList

/-- Method `classList.contains(token)`. -/
def contains (l : List String) (token : String) : Bool :=
  decide (token ∈ l)

/-- Method `classList.add(token)`: appends the token unless it is already there. -/
def add (l : List String) (token : String) : List String :=
  if contains l token then l else l ++ [token]

/-- Method `classList.toggle(token)`: removes the token when present, appends it
otherwise. -/
def toggle (l : List String) (token : String) : List String :=
  if contains l token then l.filter (fun t => decide (t ≠ token)) else l ++ [token]

end classList

/-! ## Document queries -/

/-- Element behind a reference, `none` for a reference that points at nothing. -/
def State.get (s : State) : NodeRef → Option Element
  | .body => some s.body
  | .elem i => s.elems[i]?

/-- Every element of the document, in tree order. -/
def allRefs (s : State) : List NodeRef :=
  ((List.range s.elems.length).take s.bodyPos).map NodeRef.elem ++ [NodeRef.body]
    ++ ((List.range s.elems.length).drop s.bodyPos).map NodeRef.elem

/-- Call `document.getElementById(id)`: the first element in tree order with that id,
or `none` for `null`. -/
def getElementById (s : State) (id : String) : Option NodeRef :=
  (allRefs s).find? (fun r => match s.get r with
    | some e => decide (e.id = id)
    | none => false)

/-- Whether the chain of ancestors starting at `r` has an element of class `c`.
`fuel` bounds the walk; the number of elements of the document is always enough. -/
def hasClassUpwards (s : State) (c : String) : Nat → Option NodeRef → Bool
  | 0, _ => false
  | _ + 1, none => false
  | fuel + 1, some r =>
    match s.get r with
    | none => false
    | some e => classList.contains e.classList c || hasClassUpwards s c fuel e.parent

/-- The two selectors used by the script. -/
inductive Selector where
  /-- Selector `.nav-links a`: an `a` element below an element of class `nav-links`. -/
  | navLinksA : Selector
  /-- Selector `.btn`: an element of class `btn`. -/
  | btn : Selector
  deriving DecidableEq, Repr

/-- Whether the element behind `r` matches the selector. -/
def Selector.matches (s : State) (r : NodeRef) : Selector → Bool
  | .navLinksA =>
    match s.get r with
    | none => false
    | some e =>
      decide (e.localName = "a") && hasClassUpwards s "nav-links" (s.elems.length + 1) e.parent
  | .btn =>
    match s.get r with
    | none => false
    | some e => classList.contains e.classList "btn"

/-- Call `document.querySelectorAll(selector)`: the matching elements in tree order. -/
def querySelectorAll (s : State) (sel : Selector) : List NodeRef :=
  (allRefs s).filter (fun r => sel.matches s r)

/-! ## Mutations -/

/-- Statement `console.log(line)`. -/
def consoleLog (s : State) (line : String) : State :=
  { s with console := s.console ++ [line] }

/-- Call `target.addEventListener(event, handler)` on an element. -/
def addEventListener (s : State) (target : NodeRef) (event : String) (handler : Handler) :
    State :=
  { s with listeners := s.listeners ++ [⟨target, event, handler⟩] }

/-- Call `target.addEventListener(event, handler)` where `target` may be `null`:
a method call on `null` throws. -/
def addEventListenerOn (s : State) (target : Option NodeRef) (event : String)
    (handler : Handler) : Except String State :=
  match target with
  | none => .error "TypeError"
  | some t => .ok (addEventListener s t event handler)

/-- Assignment `element.style.transform = value`. -/
def setTransform (s : State) (r : NodeRef) (value : String) : State :=
  match r with
  | .body => { s with body := { s.body with transform := value } }
  | .elem i => { s with elems := s.elems.modify (fun e => { e with transform := value }) i }

/-- Value of `element.style.transform`. -/
def transformOf (s : State) (r : NodeRef) : Option String :=
  (s.get r).map Element.transform

/-- Whether `body.classList.contains('light-mode')`. -/
def lightMode (s : State) : Bool :=
  classList.contains s.body.classList "light-mode"

/-! ## The script -/

/-- Runs one of the closures registered by the script. -/
def runHandler : Handler → State → State
  | .themeClick, s =>
    -- body.classList.toggle('light-mode');
    let s := { s with body := { s.body with
      classList := classList.toggle s.body.classList "light-mode" } }
    -- Save theme preference
    if classList.contains s.body.classList "light-mode" then
      { s with storage := setItem s.storage "theme" "light" }
    else
      { s with storage := setItem s.storage "theme" "dark" }
  | .navEnter _, s =>
    -- Potential for micro-animations
    s
  | .btnDown button, s => setTransform s button "scale(0.98)"
  | .btnUp button, s => setTransform s button "scale(1)"

/-- Runs a sequence of handlers, first to last. -/
def runHandlers (hs : List Handler) (s : State) : State :=
  hs.foldl (fun s h => runHandler h s) s

/-- Runs the theme-toggle click handler `n` times. -/
def clicks : Nat → State → State
  | 0, s => s
  | n + 1, s => runHandler .themeClick (clicks n s)

/-- The theme part of the `DOMContentLoaded` callback (`if (themeToggle) ...`). -/
def initTheme (s : State) : Except String State :=
  let themeToggle := getElementById s "theme-toggle"
  if themeToggle.isSome then
    -- Check for saved theme
    let savedTheme := getItem s.storage "theme"
    let s :=
      if savedTheme = some "light" then
        { s with body := { s.body with classList := classList.add s.body.classList "light-mode" } }
      else s
    addEventListenerOn s themeToggle "click" .themeClick
  else
    .ok s

/-- The navigation part: `navLinks.forEach(link => ...)`. -/
def initNav (s : State) : State :=
  let navLinks := querySelectorAll s .navLinksA
  navLinks.foldl (fun s link => addEventListener s link "mouseenter" (.navEnter link)) s

/-- The button part: `buttons.forEach(button => ...)`. -/
def initButtons (s : State) : State :=
  let buttons := querySelectorAll s .btn
  buttons.foldl (fun s button =>
    addEventListener (addEventListener s button "mousedown" (.btnDown button))
      button "mouseup" (.btnUp button)) s

/-- The `DOMContentLoaded` callback. -/
def init (s : State) : Except String State :=
  let s := consoleLog s "Luminary Blog: Theme system initialized."
  match initTheme s with
  | .error e => .error e
  | .ok s => .ok (initButtons (initNav s))

/-! ## What the initializer adds -/

/-- Listener put on the theme-toggle control, when the page has one. -/
def themeListeners (s : State) : List Listener :=
  match getElementById s "theme-toggle" with
  | some t => [⟨t, "click", .themeClick⟩]
  | none => []

/-- Listeners put on the navigation links. -/
def navListeners (s : State) : List Listener :=
  (querySelectorAll s .navLinksA).map (fun link => ⟨link, "mouseenter", .navEnter link⟩)

/-- Listeners put on the buttons. -/
def buttonListeners (s : State) : List Listener :=
  (querySelectorAll s .btn).flatMap
    (fun button => [⟨button, "mousedown", .btnDown button⟩, ⟨button, "mouseup", .btnUp button⟩])

/-- The body element once the saved theme has been applied. -/
def bodyAfterInit (s : State) : Element :=
  if (getElementById s "theme-toggle").isSome ∧ getItem s.storage "theme" = some "light" then
    { s.body with classList := classList.add s.body.classList "light-mode" }
  else s.body

/-- Two states show the same document to the queries of the script: they differ at most
in the presence of `light-mode` on the body and outside the element tree. -/
def SameDocument (t s : State) : Prop :=
  t.elems = s.elems ∧ t.bodyPos = s.bodyPos ∧ t.body.id = s.body.id ∧
  t.body.localName = s.body.localName ∧ t.body.parent = s.body.parent ∧
  ∀ c, c ≠ "light-mode" → classList.contains t.body.classList c
    = classList.contains s.body.classList c

/-! ## Example pages -/

/-- A page with nothing but an empty body and an empty store. -/
def blankPage : State :=
  { body := ⟨"", "body", [], none, ""⟩, elems := [], bodyPos := 0,
    storage := [], console := [], listeners := [] }

/-- A page whose markup is
`<body class="light-mode"><button id="theme-toggle" class="btn"></button>
<a class="btn"></a></body>`, visited with `theme = dark` in the store. -/
def lightMarkupPage : State :=
  { body := ⟨"", "body", ["light-mode"], none, ""⟩,
    elems := [⟨"theme-toggle", "button", ["btn"], some .body, ""⟩,
              ⟨"", "a", ["btn"], some .body, ""⟩],
    bodyPos := 0,
    storage := [("theme", "dark")], console := [], listeners := [] }

/-- The same markup with a dark body, visited with `theme = dark` in the store. -/
def darkPage : State :=
  { lightMarkupPage with body := ⟨"", "body", [], none, ""⟩ }

/-- The dark page visited with a store that holds `theme = LIGHT`. -/
def corruptStorePage : State :=
  { darkPage with storage := [("lang", "en"), ("theme", "LIGHT")] }

/-- The dark page visited with a consistent store, `theme = dark` after another key. -/
def settledPage : State :=
  { darkPage with storage := [("lang", "en"), ("theme", "dark"), ("font", "serif")] }

/-- A page without theme-toggle control, visited with `theme = light` in the store. -/
def plainPage : State :=
  { body := ⟨"", "body", [], none, ""⟩,
    elems := [⟨"", "nav", ["nav-links"], some .body, ""⟩,
              ⟨"", "a", [], some (.elem 0), ""⟩,
              ⟨"", "a", ["btn"], some .body, ""⟩],
    bodyPos := 0,
    storage := [("theme", "light")], console := [], listeners := [] }

/-! ## Lemmas on the host objects -/

theorem classList.contains_eq_true {l : List String} {t : String} :
    classList.contains l t = true ↔ t ∈ l := by
  simp [classList.contains]

theorem classList.contains_toggle (l : List String) (t : String) :
    classList.contains (classList.toggle l t) t = !classList.contains l t := by
  unfold classList.toggle classList.contains
  by_cases h : t ∈ l <;> simp [h]

theorem classList.contains_add (l : List String) (t : String) :
    classList.contains (classList.add l t) t = true := by
  unfold classList.add
  by_cases h : classList.contains l t = true
  · simp [h]
  · simp only [h]
    simp [classList.contains]

theorem classList.contains_add_of_ne (l : List String) {t c : String} (h : c ≠ t) :
    classList.contains (classList.add l t) c = classList.contains l c := by
  unfold classList.add
  by_cases h' : classList.contains l t = true
  · simp [h']
  · simp only [h']
    simp [classList.contains, h]

theorem getItem_setItem (st : List (String × String)) (k v : String) :
    getItem (setItem st k v) k = some v := by
  induction st with
  | nil => simp [setItem, getItem]
  | cons e rest ih =>
    obtain ⟨k', v'⟩ := e
    by_cases h : k' = k
    · simp [setItem, getItem, h]
    · simp [setItem, getItem, h, ih]

theorem getItem_setItem_of_ne (st : List (String × String)) {k k' : String} (v : String)
    (h : k' ≠ k) : getItem (setItem st k v) k' = getItem st k' := by
  induction st with
  | nil => simp [setItem, getItem, Ne.symm h]
  | cons e rest ih =>
    obtain ⟨k'', v''⟩ := e
    by_cases h1 : k'' = k
    · subst h1
      simp [setItem, getItem, Ne.symm h]
    · by_cases h2 : k'' = k'
      · subst h2
        simp [setItem, getItem, h1]
      · simp [setItem, getItem, h1, h2, ih]

theorem setItem_setItem (st : List (String × String)) (k v w : String) :
    setItem (setItem st k w) k v = setItem st k v := by
  induction st with
  | nil => simp [setItem]
  | cons e rest ih =>
    obtain ⟨k', v'⟩ := e
    by_cases h : k' = k
    · simp [setItem, h]
    · simp [setItem, h, ih]

theorem setItem_eq_self (st : List (String × String)) {k v : String}
    (h : getItem st k = some v) : setItem st k v = st := by
  induction st with
  | nil => simp [getItem] at h
  | cons e rest ih =>
    obtain ⟨k', v'⟩ := e
    by_cases h1 : k' = k
    · simp [getItem, h1] at h
      simp [setItem, h1, h]
    · simp [getItem, h1] at h
      simp [setItem, h1, ih h]

/-! ## The theme-toggle click handler -/

theorem lightMode_themeClick (s : State) :
    lightMode (runHandler .themeClick s) = !lightMode s := by
  simp only [runHandler, lightMode]
  split <;> simp [classList.contains_toggle]

theorem storage_themeClick (s : State) :
    (runHandler .themeClick s).storage
      = setItem s.storage "theme" (if lightMode s then "dark" else "light") := by
  simp only [runHandler, lightMode, classList.contains_toggle]
  by_cases h : classList.contains s.body.classList "light-mode" = true <;> simp [h]

theorem elems_themeClick (s : State) : (runHandler .themeClick s).elems = s.elems := by
  simp only [runHandler]
  split <;> rfl

theorem transform_body_themeClick (s : State) :
    (runHandler .themeClick s).body.transform = s.body.transform := by
  simp only [runHandler]
  split <;> rfl

theorem getItem_themeClick (s : State) :
    getItem (runHandler .themeClick s).storage "theme"
      = some (if lightMode (runHandler .themeClick s) then "light" else "dark") := by
  rw [storage_themeClick, lightMode_themeClick, getItem_setItem]
  cases lightMode s <;> simp

/-! ## Queries do not see the theme flag -/

theorem allRefs_congr {t s : State} (h : SameDocument t s) : allRefs t = allRefs s := by
  obtain ⟨he, hp, -⟩ := h
  simp [allRefs, he, hp]

theorem getElementById_congr {t s : State} (h : SameDocument t s) (id : String) :
    getElementById t id = getElementById s id := by
  unfold getElementById
  rw [allRefs_congr h]
  obtain ⟨he, -, hi, -⟩ := h
  congr 1
  funext r
  cases r <;> simp [State.get, he, hi]

theorem hasClassUpwards_congr {t s : State} (h : SameDocument t s) {c : String}
    (hc : c ≠ "light-mode") (fuel : Nat) (o : Option NodeRef) :
    hasClassUpwards t c fuel o = hasClassUpwards s c fuel o := by
  induction fuel generalizing o with
  | zero => simp [hasClassUpwards]
  | succ n ih =>
    cases o with
    | none => simp [hasClassUpwards]
    | some r =>
      cases r with
      | body => simp [hasClassUpwards, State.get, h.2.2.2.2.2 c hc, h.2.2.2.2.1, ih]
      | elem i => simp [hasClassUpwards, State.get, h.1, ih]

theorem matches_congr {t s : State} (h : SameDocument t s) (sel : Selector) (r : NodeRef) :
    sel.matches t r = sel.matches s r := by
  cases sel with
  | navLinksA =>
    cases r with
    | body =>
      simp [Selector.matches, State.get, h.1, h.2.2.2.1, h.2.2.2.2.1,
        hasClassUpwards_congr h (by decide : "nav-links" ≠ "light-mode")]
    | elem i =>
      simp [Selector.matches, State.get, h.1,
        hasClassUpwards_congr h (by decide : "nav-links" ≠ "light-mode")]
  | btn =>
    cases r with
    | body => simp [Selector.matches, State.get, h.2.2.2.2.2 "btn" (by decide)]
    | elem i => simp [Selector.matches, State.get, h.1]

theorem querySelectorAll_congr {t s : State} (h : SameDocument t s) (sel : Selector) :
    querySelectorAll t sel = querySelectorAll s sel := by
  unfold querySelectorAll
  rw [allRefs_congr h]
  congr 1
  funext r
  exact matches_congr h sel r

/-! ## The initializer in closed form -/

theorem foldl_listeners (f : NodeRef → List Listener) (xs : List NodeRef) (s : State) :
    xs.foldl (fun s x => { s with listeners := s.listeners ++ f x }) s
      = { s with listeners := s.listeners ++ xs.flatMap f } := by
  induction xs generalizing s with
  | nil => simp
  | cons x xs ih => simp [ih, List.append_assoc]

theorem initNav_eq (s : State) :
    initNav s = { s with listeners := s.listeners ++ navListeners s } := by
  have h := foldl_listeners (fun link => [⟨link, "mouseenter", .navEnter link⟩])
    (querySelectorAll s .navLinksA) s
  simp only [initNav, addEventListener, navListeners]
  rw [h]
  congr 2
  induction querySelectorAll s .navLinksA with
  | nil => rfl
  | cons x xs ih => simp [ih]

theorem initButtons_eq (s : State) :
    initButtons s = { s with listeners := s.listeners ++ buttonListeners s } := by
  have h := foldl_listeners
    (fun button => [⟨button, "mousedown", .btnDown button⟩, ⟨button, "mouseup", .btnUp button⟩])
    (querySelectorAll s .btn) s
  simp only [initButtons, addEventListener, buttonListeners, List.append_assoc]
  simpa using h

theorem initTheme_eq (s : State) :
    initTheme s = .ok { s with body := bodyAfterInit s,
                               listeners := s.listeners ++ themeListeners s } := by
  unfold initTheme bodyAfterInit themeListeners
  cases hg : getElementById s "theme-toggle" with
  | none => simp
  | some t =>
    by_cases hl : getItem s.storage "theme" = some "light"
    · simp [hl, addEventListenerOn, addEventListener]
    · simp [hl, addEventListenerOn, addEventListener]

theorem sameDocument_bodyAfterInit (s t : State) (he : t.elems = s.elems)
    (hp : t.bodyPos = s.bodyPos) (hb : t.body = bodyAfterInit s) : SameDocument t s := by
  refine ⟨he, hp, ?_, ?_, ?_, ?_⟩
  · rw [hb]; unfold bodyAfterInit; split <;> rfl
  · rw [hb]; unfold bodyAfterInit; split <;> rfl
  · rw [hb]; unfold bodyAfterInit; split <;> rfl
  · intro c hc
    rw [hb]; unfold bodyAfterInit
    split
    · exact classList.contains_add_of_ne _ hc
    · rfl

theorem sameDocument_of_body (s t : State) (he : t.elems = s.elems)
    (hp : t.bodyPos = s.bodyPos) (hb : t.body = s.body) : SameDocument t s :=
  ⟨he, hp, by rw [hb], by rw [hb], by rw [hb], fun _ _ => by rw [hb]⟩

theorem init_eq (s : State) :
    init s = .ok { s with
      body := bodyAfterInit s,
      console := s.console ++ ["Luminary Blog: Theme system initialized."],
      listeners := s.listeners ++ themeListeners s ++ navListeners s ++ buttonListeners s } := by
  have h0 : SameDocument (consoleLog s "Luminary Blog: Theme system initialized.") s :=
    sameDocument_of_body _ _ rfl rfl rfl
  have hb : bodyAfterInit (consoleLog s "Luminary Blog: Theme system initialized.")
      = bodyAfterInit s := by
    simp only [bodyAfterInit, getElementById_congr h0]
    rfl
  have ht : themeListeners (consoleLog s "Luminary Blog: Theme system initialized.")
      = themeListeners s := by
    simp only [themeListeners, getElementById_congr h0]
  have hn : ∀ (st : List (String × String)) (c : List String) (l : List Listener),
      navListeners { body := bodyAfterInit s, elems := s.elems, bodyPos := s.bodyPos,
                     storage := st, console := c, listeners := l } = navListeners s := by
    intro st c l
    have hd := sameDocument_bodyAfterInit s
      { body := bodyAfterInit s, elems := s.elems, bodyPos := s.bodyPos,
        storage := st, console := c, listeners := l } rfl rfl rfl
    simp only [navListeners, querySelectorAll_congr hd]
  have hq : ∀ (st : List (String × String)) (c : List String) (l : List Listener),
      buttonListeners { body := bodyAfterInit s, elems := s.elems, bodyPos := s.bodyPos,
                        storage := st, console := c, listeners := l } = buttonListeners s := by
    intro st c l
    have hd := sameDocument_bodyAfterInit s
      { body := bodyAfterInit s, elems := s.elems, bodyPos := s.bodyPos,
        storage := st, console := c, listeners := l } rfl rfl rfl
    simp only [buttonListeners, querySelectorAll_congr hd]
  simp only [init, initTheme_eq, initNav_eq, initButtons_eq, hb, ht]
  simp only [consoleLog, hn, hq]

/-! ## Inline transforms -/

theorem get_of_mem_querySelectorAll {s : State} {sel : Selector} {r : NodeRef}
    (h : r ∈ querySelectorAll s sel) : ∃ e, s.get r = some e := by
  simp only [querySelectorAll, List.mem_filter] at h
  cases hg : s.get r with
  | some e => exact ⟨e, rfl⟩
  | none => cases sel <;> simp [Selector.matches, hg] at h

theorem transformOf_setTransform_self (s : State) (b : NodeRef) (v : String) :
    transformOf (setTransform s b v) b = (transformOf s b).map (fun _ => v) := by
  cases b with
  | body => simp [transformOf, setTransform, State.get]
  | elem i =>
    simp only [transformOf, setTransform, State.get, List.getElem?_modify_eq]
    cases s.elems[i]? <;> simp

theorem transformOf_setTransform_of_ne (s : State) {b r : NodeRef} (v : String) (h : r ≠ b) :
    transformOf (setTransform s b v) r = transformOf s r := by
  cases b with
  | body =>
    cases r with
    | body => exact absurd rfl h
    | elem j => simp [transformOf, setTransform, State.get]
  | elem i =>
    cases r with
    | body => simp [transformOf, setTransform, State.get]
    | elem j =>
      have hij : i ≠ j := fun e => h (by rw [e])
      simp [transformOf, setTransform, State.get, List.getElem?_modify_ne _ _ hij]

theorem lightMode_setTransform (s : State) (b : NodeRef) (v : String) :
    lightMode (setTransform s b v) = lightMode s := by
  cases b <;> rfl

theorem storage_setTransform (s : State) (b : NodeRef) (v : String) :
    (setTransform s b v).storage = s.storage := by
  cases b <;> rfl

theorem transformOf_themeClick (s : State) (r : NodeRef) :
    transformOf (runHandler .themeClick s) r = transformOf s r := by
  cases r with
  | body => simp [transformOf, State.get, transform_body_themeClick]
  | elem i => simp [transformOf, State.get, elems_themeClick]

/-- Every handler other than the mouseup handler of `b` keeps a shrunk `b` shrunk. -/
theorem transformOf_runHandler_keep (s : State) (b : NodeRef) (h : Handler)
    (hh : h ≠ .btnUp b) (hs : transformOf s b = some "scale(0.98)") :
    transformOf (runHandler h s) b = some "scale(0.98)" := by
  cases h with
  | themeClick => rw [transformOf_themeClick, hs]
  | navEnter link => exact hs
  | btnDown c =>
    by_cases hc : b = c
    · subst hc
      simp [runHandler, transformOf_setTransform_self, hs]
    · simp only [runHandler]
      rw [transformOf_setTransform_of_ne s _ hc, hs]
  | btnUp c =>
    have hc : b ≠ c := fun e => hh (by rw [e])
    simp only [runHandler]
    rw [transformOf_setTransform_of_ne s _ hc, hs]

theorem transformOf_runHandlers_keep (b : NodeRef) (hs : List Handler)
    (hno : Handler.btnUp b ∉ hs) (s : State) (h : transformOf s b = some "scale(0.98)") :
    transformOf (runHandlers hs s) b = some "scale(0.98)" := by
  induction hs generalizing s with
  | nil => exact h
  | cons x xs ih =>
    simp only [List.mem_cons, not_or] at hno
    simp only [runHandlers, List.foldl_cons]
    exact ih hno.2 _ (transformOf_runHandler_keep s b x (fun e => hno.1 e.symm) h)

/-! ## Runs of clicks -/

theorem getItem_clicks_succ (n : Nat) (s : State) :
    getItem (clicks (n + 1) s).storage "theme"
      = some (if lightMode (clicks (n + 1) s) then "light" else "dark") :=
  getItem_themeClick (clicks n s)

theorem lightMode_bodyAfterInit (p : State) (ht : (getElementById p "theme-toggle").isSome) :
    classList.contains (bodyAfterInit p).classList "light-mode"
      = (decide (getItem p.storage "theme" = some "light") || lightMode p) := by
  unfold bodyAfterInit lightMode
  by_cases hl : getItem p.storage "theme" = some "light"
  · simp [ht, hl, classList.contains_add]
  · simp [hl]

/-! ## Properties of the script -/

/-- C1, as stated, fails: on a page whose markup already puts `light-mode` on the body,
visited with `theme = dark` in the store, the initializer leaves the flag present although
the persisted value is not `light`. -/
theorem init_flag_iff_light_counterexample :
    (getElementById lightMarkupPage "theme-toggle").isSome = true ∧
    getItem lightMarkupPage.storage "theme" = some "dark" ∧
    ∃ p, init lightMarkupPage = .ok p ∧ lightMode p = true ∧
      ¬ (lightMode p = true ↔ getItem lightMarkupPage.storage "theme" = some "light") := by
  refine ⟨by decide, by decide, _, init_eq lightMarkupPage, by decide, ?_⟩
  intro h
  have := h.mp (by decide)
  exact absurd this (by decide)

/-- C1, amended: on a page with the theme-toggle control the initializer completes, and
afterwards the `light-mode` flag is on the body exactly when the persisted theme is `light`
or the flag was there before; so on a body that starts without the flag it is present
exactly when the persisted theme is `light`. -/
theorem init_applies_saved_theme (p : State)
    (ht : (getElementById p "theme-toggle").isSome = true) :
    ∃ q, init p = .ok q ∧
      (lightMode q = true ↔ (getItem p.storage "theme" = some "light" ∨ lightMode p = true)) ∧
      (lightMode p = false →
        (lightMode q = true ↔ getItem p.storage "theme" = some "light")) := by
  refine ⟨_, init_eq p, ?_, ?_⟩
  · simp [lightMode, lightMode_bodyAfterInit p ht]
  · intro hf
    show classList.contains (bodyAfterInit p).classList "light-mode" = true ↔ _
    rw [lightMode_bodyAfterInit p ht, hf]
    simp

/-- Witness for C1 at the dark page, whose store holds `theme = dark`. -/
theorem init_applies_saved_theme_witness :
    (getElementById darkPage "theme-toggle").isSome = true ∧
    ∃ q, init darkPage = .ok q ∧
      (lightMode q = true ↔
        (getItem darkPage.storage "theme" = some "light" ∨ lightMode darkPage = true)) ∧
      (lightMode darkPage = false →
        (lightMode q = true ↔ getItem darkPage.storage "theme" = some "light")) :=
  ⟨by decide, init_applies_saved_theme darkPage (by decide)⟩

/-- C2, as stated, fails: from a dark page with no persisted theme, two clicks leave
`theme = dark` in the store, not an absent key. -/
theorem double_click_round_trip_counterexample :
    getItem blankPage.storage "theme" = none ∧
    getItem (runHandler .themeClick (runHandler .themeClick blankPage)).storage "theme"
      = some "dark" ∧
    ¬ (lightMode (runHandler .themeClick (runHandler .themeClick blankPage))
          = lightMode blankPage ∧
       getItem (runHandler .themeClick (runHandler .themeClick blankPage)).storage "theme"
          = getItem blankPage.storage "theme") := by
  refine ⟨by decide, by decide, ?_⟩
  intro h
  exact absurd h.2 (by decide)

/-- C2, amended: two clicks restore the flag from every state and leave the persisted
theme equal to the value that matches the flag (`light` if set, `dark` if not); when the
persisted theme matched the flag before the first click, the whole store is back to what
it was. -/
theorem double_click_round_trip (s : State) :
    lightMode (runHandler .themeClick (runHandler .themeClick s)) = lightMode s ∧
    getItem (runHandler .themeClick (runHandler .themeClick s)).storage "theme"
      = some (if lightMode s then "light" else "dark") ∧
    (getItem s.storage "theme" = some (if lightMode s then "light" else "dark") →
      (runHandler .themeClick (runHandler .themeClick s)).storage = s.storage) := by
  have hl : lightMode (runHandler .themeClick (runHandler .themeClick s)) = lightMode s := by
    simp [lightMode_themeClick]
  refine ⟨hl, ?_, ?_⟩
  · rw [getItem_themeClick, hl]
  · intro hc
    rw [storage_themeClick, storage_themeClick, setItem_setItem, lightMode_themeClick]
    cases hm : lightMode s with
    | false =>
      rw [hm] at hc
      simpa using setItem_eq_self s.storage hc
    | true =>
      rw [hm] at hc
      simpa using setItem_eq_self s.storage hc

/-- Witness for C2 at a dark page whose store holds `theme = dark` between two other
keys. -/
theorem double_click_round_trip_witness :
    getItem settledPage.storage "theme"
      = some (if lightMode settledPage then "light" else "dark") ∧
    (runHandler .themeClick (runHandler .themeClick settledPage)).storage
      = settledPage.storage :=
  ⟨by decide, (double_click_round_trip settledPage).2.2 (by decide)⟩

/-- C3: right after the click handler has run, from any state, the persisted theme is
`light` if the flag is on the body and `dark` if it is not; the same holds after any
run of one or more clicks. -/
theorem click_keeps_store_in_step (s : State) :
    getItem (runHandler .themeClick s).storage "theme"
      = some (if lightMode (runHandler .themeClick s) then "light" else "dark") ∧
    ∀ n : Nat, getItem (clicks (n + 1) s).storage "theme"
      = some (if lightMode (clicks (n + 1) s) then "light" else "dark") :=
  ⟨getItem_themeClick s, fun n => getItem_clicks_succ n s⟩

/-- C4: from any state without the flag, whatever the store holds, one click sets the
flag and persists `light`. -/
theorem click_from_dark (s : State) (h : lightMode s = false) :
    lightMode (runHandler .themeClick s) = true ∧
    getItem (runHandler .themeClick s).storage "theme" = some "light" := by
  have hl : lightMode (runHandler .themeClick s) = true := by
    rw [lightMode_themeClick, h]; rfl
  refine ⟨hl, ?_⟩
  rw [getItem_themeClick, hl]
  rfl

/-- Witness for C4 at a dark page whose store holds `theme = LIGHT`. -/
theorem click_from_dark_witness :
    lightMode corruptStorePage = false ∧
    lightMode (runHandler .themeClick corruptStorePage) = true ∧
    getItem (runHandler .themeClick corruptStorePage).storage "theme" = some "light" :=
  ⟨by decide, click_from_dark corruptStorePage (by decide)⟩

/-- C5: after one or more clicks from any state, the initializer run on a fresh page
(toggle control present, body without the flag) over the resulting store completes, gives
the body the flag it had after the last click, and leaves the store as it found it. -/
theorem theme_survives_reload (s : State) (n : Nat) (hn : 1 ≤ n) (p : State)
    (ht : (getElementById p "theme-toggle").isSome = true) (hf : lightMode p = false)
    (hs : p.storage = (clicks n s).storage) :
    ∃ q, init p = .ok q ∧ lightMode q = lightMode (clicks n s) ∧ q.storage = p.storage := by
  obtain ⟨m, rfl⟩ : ∃ m, n = m + 1 := ⟨n - 1, by omega⟩
  refine ⟨_, init_eq p, ?_, rfl⟩
  show classList.contains (bodyAfterInit p).classList "light-mode" = _
  rw [lightMode_bodyAfterInit p ht, hf, hs, getItem_clicks_succ]
  cases lightMode (clicks (m + 1) s) <;> simp

/-- Witness for C5: three clicks on the light-markup page, then a load of the dark page
over the store they leave. -/
theorem theme_survives_reload_witness :
    ∃ q, init { darkPage with storage := (clicks 3 lightMarkupPage).storage } = .ok q ∧
      lightMode q = lightMode (clicks 3 lightMarkupPage) ∧
      q.storage = (clicks 3 lightMarkupPage).storage :=
  theme_survives_reload lightMarkupPage 3 (by decide)
    { darkPage with storage := (clicks 3 lightMarkupPage).storage }
    (by decide) (by decide) rfl

/-- C6: on a page without an element of id `theme-toggle` the initializer completes,
whatever the store holds; it leaves the body (hence the flag), the other elements and the
store as they were, and the listeners it adds are those of the navigation links and the
buttons, none of which is a click listener or the theme handler. -/
theorem init_without_toggle (s : State) (h : getElementById s "theme-toggle" = none) :
    ∃ q, init s = .ok q ∧ q.body = s.body ∧ lightMode q = lightMode s ∧
      q.elems = s.elems ∧ q.storage = s.storage ∧
      q.listeners = s.listeners ++ (navListeners s ++ buttonListeners s) ∧
      ∀ l ∈ navListeners s ++ buttonListeners s,
        l.event ≠ "click" ∧ l.handler ≠ Handler.themeClick := by
  have hb : bodyAfterInit s = s.body := by simp [bodyAfterInit, h]
  have hl : themeListeners s = [] := by simp [themeListeners, h]
  refine ⟨_, init_eq s, hb, ?_, rfl, rfl, ?_, ?_⟩
  · show classList.contains (bodyAfterInit s).classList "light-mode" = _
    rw [hb]; rfl
  · simp [hl]
  · intro l hl
    rcases List.mem_append.mp hl with hn | hq
    · simp only [navListeners, List.mem_map] at hn
      obtain ⟨r, -, rfl⟩ := hn
      exact ⟨show "mouseenter" ≠ "click" by decide, by simp⟩
    · simp only [buttonListeners, List.mem_flatMap, List.mem_cons, List.mem_singleton,
        List.not_mem_nil, or_false] at hq
      obtain ⟨r, -, rfl | rfl⟩ := hq
      · exact ⟨show "mousedown" ≠ "click" by decide, by simp⟩
      · exact ⟨show "mouseup" ≠ "click" by decide, by simp⟩

/-- Witness for C6 at a page with navigation links and a button but no toggle control,
visited with `theme = light` in the store. -/
theorem init_without_toggle_witness :
    getElementById plainPage "theme-toggle" = none ∧
    ∃ q, init plainPage = .ok q ∧ q.body = plainPage.body ∧
      lightMode q = lightMode plainPage ∧
      q.elems = plainPage.elems ∧ q.storage = plainPage.storage ∧
      q.listeners = plainPage.listeners ++ (navListeners plainPage ++ buttonListeners plainPage) ∧
      ∀ l ∈ navListeners plainPage ++ buttonListeners plainPage,
        l.event ≠ "click" ∧ l.handler ≠ Handler.themeClick :=
  ⟨by decide, init_without_toggle plainPage (by decide)⟩

/-- C7: on a page with the toggle control and a body without the flag, a persisted theme
that is not exactly `light` (absent included) lets the initializer complete with the flag
still absent, and the outcome is that of the same load with `theme = dark` in the store,
the store itself apart. -/
theorem init_unrecognized_theme (p : State)
    (_ht : (getElementById p "theme-toggle").isSome = true) (hf : lightMode p = false)
    (hv : getItem p.storage "theme" ≠ some "light") :
    ∃ q, init p = .ok q ∧ lightMode q = false ∧ q.body = p.body ∧ q.storage = p.storage ∧
      init { p with storage := setItem p.storage "theme" "dark" }
        = .ok { q with storage := setItem p.storage "theme" "dark" } := by
  have hb : bodyAfterInit p = p.body := by simp [bodyAfterInit, hv]
  have hd : SameDocument { p with storage := setItem p.storage "theme" "dark" } p :=
    sameDocument_of_body _ _ rfl rfl rfl
  have hb2 : bodyAfterInit { p with storage := setItem p.storage "theme" "dark" } = p.body := by
    simp [bodyAfterInit, getItem_setItem]
  refine ⟨_, init_eq p, ?_, hb, rfl, ?_⟩
  · show classList.contains (bodyAfterInit p).classList "light-mode" = _
    rw [hb]; exact hf
  · rw [init_eq, hb2, hb]
    simp only [themeListeners, navListeners, buttonListeners, getElementById_congr hd,
      querySelectorAll_congr hd]

/-- Witness for C7 at the dark page visited with `theme = LIGHT` in the store. -/
theorem init_unrecognized_theme_witness :
    getItem corruptStorePage.storage "theme" = some "LIGHT" ∧
    ∃ q, init corruptStorePage = .ok q ∧ lightMode q = false ∧
      q.body = corruptStorePage.body ∧ q.storage = corruptStorePage.storage ∧
      init { corruptStorePage with storage := setItem corruptStorePage.storage "theme" "dark" }
        = .ok { q with storage := setItem corruptStorePage.storage "theme" "dark" } :=
  ⟨by decide, init_unrecognized_theme corruptStorePage (by decide) (by decide) (by decide)⟩

/-- C8: for every element `b` matching `.btn`, the initializer registers on `b` a
mousedown and a mouseup listener, and they are the only listeners it puts on `b` for these
events; the mousedown handler sets the transform of `b` to `scale(0.98)`, the mouseup
handler sets it to `scale(1)`, and both leave the transform of every other element as it
was. -/
theorem button_press_feedback (s : State) (b : NodeRef) (hb : b ∈ querySelectorAll s .btn) :
    (∃ q, init s = .ok q ∧
      q.listeners = s.listeners ++ (themeListeners s ++ navListeners s ++ buttonListeners s) ∧
      (⟨b, "mousedown", .btnDown b⟩ : Listener) ∈ buttonListeners s ∧
      (⟨b, "mouseup", .btnUp b⟩ : Listener) ∈ buttonListeners s ∧
      ∀ l ∈ themeListeners s ++ navListeners s ++ buttonListeners s, l.target = b →
        (l.event = "mousedown" → l.handler = .btnDown b) ∧
        (l.event = "mouseup" → l.handler = .btnUp b)) ∧
    transformOf (runHandler (.btnDown b) s) b = some "scale(0.98)" ∧
    transformOf (runHandler (.btnUp b) s) b = some "scale(1)" ∧
    ∀ c, c ≠ b →
      transformOf (runHandler (.btnDown b) s) c = transformOf s c ∧
      transformOf (runHandler (.btnUp b) s) c = transformOf s c := by
  obtain ⟨e, he⟩ := get_of_mem_querySelectorAll hb
  have ht : transformOf s b = some e.transform := by simp [transformOf, he]
  refine ⟨⟨_, init_eq s, by simp [List.append_assoc], ?_, ?_, ?_⟩, ?_, ?_, ?_⟩
  · simp only [buttonListeners, List.mem_flatMap]
    exact ⟨b, hb, by simp⟩
  · simp only [buttonListeners, List.mem_flatMap]
    exact ⟨b, hb, by simp⟩
  · intro l hl htgt
    simp only [List.mem_append] at hl
    rcases hl with (hth | hn) | hq
    · have hev : l.event = "click" := by
        unfold themeListeners at hth
        split at hth
        · simp only [List.mem_singleton] at hth
          rw [hth]
        · simp at hth
      rw [hev]
      exact ⟨fun h => absurd h (by decide), fun h => absurd h (by decide)⟩
    · simp only [navListeners, List.mem_map] at hn
      obtain ⟨r, -, rfl⟩ := hn
      exact ⟨fun h => absurd (show "mouseenter" = "mousedown" from h) (by decide),
        fun h => absurd (show "mouseenter" = "mouseup" from h) (by decide)⟩
    · simp only [buttonListeners, List.mem_flatMap, List.mem_cons, List.mem_singleton,
        List.not_mem_nil, or_false] at hq
      obtain ⟨r, -, rfl | rfl⟩ := hq
      · have hr : r = b := htgt
        subst hr
        exact ⟨fun _ => rfl,
          fun h => absurd (show "mousedown" = "mouseup" from h) (by decide)⟩
      · have hr : r = b := htgt
        subst hr
        exact ⟨fun h => absurd (show "mouseup" = "mousedown" from h) (by decide),
          fun _ => rfl⟩
  · simp [runHandler, transformOf_setTransform_self, ht]
  · simp [runHandler, transformOf_setTransform_self, ht]
  · intro c hc
    exact ⟨transformOf_setTransform_of_ne s _ hc, transformOf_setTransform_of_ne s _ hc⟩

/-- Witness for C8 at the second button of the dark page. -/
theorem button_press_feedback_witness :
    NodeRef.elem 1 ∈ querySelectorAll darkPage .btn ∧
    transformOf (runHandler (.btnDown (.elem 1)) darkPage) (.elem 1) = some "scale(0.98)" ∧
    transformOf (runHandler (.btnUp (.elem 1)) darkPage) (.elem 1) = some "scale(1)" ∧
    ∀ c, c ≠ NodeRef.elem 1 →
      transformOf (runHandler (.btnDown (.elem 1)) darkPage) c = transformOf darkPage c ∧
      transformOf (runHandler (.btnUp (.elem 1)) darkPage) c = transformOf darkPage c :=
  ⟨by decide, (button_press_feedback darkPage (.elem 1) (by decide)).2⟩

/-- C9: the mousedown and mouseup handlers of any element leave the flag on the body and
the whole store as they were, the mouseenter handler of any element leaves the whole state
as it was, and the click handler leaves the transform of every element and every store
key other than `theme` as they were. -/
theorem handlers_touch_disjoint_state (s : State) (b link : NodeRef) :
    (lightMode (runHandler (.btnDown b) s) = lightMode s ∧
      (runHandler (.btnDown b) s).storage = s.storage) ∧
    (lightMode (runHandler (.btnUp b) s) = lightMode s ∧
      (runHandler (.btnUp b) s).storage = s.storage) ∧
    runHandler (.navEnter link) s = s ∧
    (∀ r, transformOf (runHandler .themeClick s) r = transformOf s r) ∧
    (∀ k, k ≠ "theme" →
      getItem (runHandler .themeClick s).storage k = getItem s.storage k) := by
  refine ⟨⟨lightMode_setTransform s b _, storage_setTransform s b _⟩,
    ⟨lightMode_setTransform s b _, storage_setTransform s b _⟩, rfl,
    transformOf_themeClick s, ?_⟩
  intro k hk
  rw [storage_themeClick, getItem_setItem_of_ne _ _ hk]

/-- Witness for C9: a click on the settled page keeps the key `font`. -/
theorem handlers_touch_disjoint_state_witness :
    getItem (runHandler .themeClick settledPage).storage "font"
      = getItem settledPage.storage "font" :=
  (handlers_touch_disjoint_state settledPage .body .body).2.2.2.2 "font" (by decide)

/-- C10: once the mousedown handler of a button `b` has run, any sequence of handlers of
the script without the mouseup handler of `b` leaves the transform of `b` at
`scale(0.98)`; after it the mouseup handler of `b` gives `scale(1)`, and no other handler
does. -/
theorem pressed_button_stays_shrunk (s : State) (b : NodeRef)
    (hb : b ∈ querySelectorAll s .btn) (hs : List Handler) (hno : Handler.btnUp b ∉ hs) :
    transformOf (runHandlers hs (runHandler (.btnDown b) s)) b = some "scale(0.98)" ∧
    transformOf (runHandler (.btnUp b) (runHandlers hs (runHandler (.btnDown b) s))) b
      = some "scale(1)" ∧
    ∀ h : Handler,
      transformOf (runHandler h (runHandlers hs (runHandler (.btnDown b) s))) b
        = some "scale(1)" → h = .btnUp b := by
  obtain ⟨e, he⟩ := get_of_mem_querySelectorAll hb
  have ht : transformOf s b = some e.transform := by simp [transformOf, he]
  have h0 : transformOf (runHandler (.btnDown b) s) b = some "scale(0.98)" := by
    simp only [runHandler]
    rw [transformOf_setTransform_self, ht]
    rfl
  have h1 := transformOf_runHandlers_keep b hs hno _ h0
  refine ⟨h1, ?_, ?_⟩
  · show transformOf (setTransform _ b "scale(1)") b = some "scale(1)"
    rw [transformOf_setTransform_self, h1]
    rfl
  · intro h hh
    by_contra hne
    rw [transformOf_runHandler_keep _ b h hne h1] at hh
    exact absurd hh (by decide)

/-- Witness for C10: the second button of the dark page is pressed, then the theme is
toggled and the first button is pressed and released. -/
theorem pressed_button_stays_shrunk_witness :
    transformOf
      (runHandlers [.themeClick, .navEnter (.elem 1), .btnDown (.elem 0), .btnUp (.elem 0),
          .btnDown (.elem 1)]
        (runHandler (.btnDown (.elem 1)) darkPage)) (.elem 1) = some "scale(0.98)" :=
  (pressed_button_stays_shrunk darkPage (.elem 1) (by decide)
    [.themeClick, .navEnter (.elem 1), .btnDown (.elem 0), .btnUp (.elem 0),
      .btnDown (.elem 1)] (by decide)).1

end Luminary
